import Mathlib

/-!
Shallow embedding of the insertion-ledger core of the offer-placer
repository: `src/core/models.py`, `src/core/insercao_service.py`,
`src/core/settings.py` and `src/core/log_insercoes_service.py`.

File contents are modeled as explicit values (`Option` for a possibly
missing file, a list of parsed rows for a CSV body).  Python `Decimal`
values are modeled by an inductive over `ℚ` extended with the
non-finite values; the string parsing performed by Python `int(...)`
and `Decimal(...)` is modeled by executable parsers below.
-/

namespace OfferPlacer

/-- Model of Python `s.strip()` on the character list: drops leading
and trailing whitespace. -/
def stripChars (cs : List Char) : List Char :=
  ((cs.dropWhile Char.isWhitespace).reverse.dropWhile Char.isWhitespace).reverse

/-- Model of Python `s.strip()`. -/
def pyStrip (s : String) : String :=
  ⟨stripChars s.data⟩

/-- Model of Python `s.lower()` (ASCII case folding). -/
def pyLower (s : String) : String :=
  ⟨s.data.map Char.toLower⟩

/-- Model of Python `s.replace(",", ".")`. -/
def commaToDot (s : String) : String :=
  ⟨s.data.map (fun c => if c = ',' then '.' else c)⟩

/-- Model of a Python `decimal.Decimal` value: a finite rational,
a NaN (quiet and signaling collapsed into one), or a signed infinity. -/
inductive PyDecimal where
  | num (q : ℚ)
  | nan
  | inf (neg : Bool)
  deriving DecidableEq, Repr

/-- Digit tail of a Python integer literal: digits with single
underscores allowed only between digits. -/
def pyDigitsRest : List Char → Bool
  | [] => true
  | '_' :: c :: r => c.isDigit && pyDigitsRest r
  | ['_'] => false
  | c :: r => c.isDigit && pyDigitsRest r

/-- Nonempty digit group (with internal underscores) of a Python
base-10 integer literal. -/
def pyDigits : List Char → Bool
  | [] => false
  | c :: r => c.isDigit && pyDigitsRest r

/-- Numeric value of a digit list, skipping underscores. -/
def digitsVal (cs : List Char) : Nat :=
  cs.foldl (fun a c => if c = '_' then a else 10 * a + (c.toNat - 48)) 0

/-- Model of Python `int(s)` for ASCII base-10 strings: strips
whitespace, accepts an optional sign followed by digits with internal
underscores; returns `none` where `int` raises `ValueError`. -/
def pyParseInt (s : String) : Option Int :=
  match stripChars s.data with
  | '+' :: r => if pyDigits r then some (digitsVal r : Int) else none
  | '-' :: r => if pyDigits r then some (-(digitsVal r : Int)) else none
  | r => if pyDigits r then some (digitsVal r : Int) else none

/-- Splits off the maximal leading run of ASCII digits. -/
def takeDigits : List Char → List Char × List Char
  | [] => ([], [])
  | c :: r =>
    if c.isDigit then
      let p := takeDigits r
      (c :: p.1, p.2)
    else ([], c :: r)

/-- Mantissa of a decimal numeric string: `digits`, `digits.digits`,
`digits.` or `.digits` (at least one digit overall). -/
def parseMantissa (cs : List Char) : Option ℚ :=
  let p := takeDigits cs
  match p.2 with
  | [] => if p.1.isEmpty then none else some (digitsVal p.1 : ℚ)
  | '.' :: r2 =>
    let f := takeDigits r2
    if f.2.isEmpty && !(p.1.isEmpty && f.1.isEmpty) then
      some ((digitsVal p.1 : ℚ) + (digitsVal f.1 : ℚ) / (10 : ℚ) ^ f.1.length)
    else none
  | _ => none

/-- Exponent part of a decimal numeric string (after the `e`):
optional sign and a nonempty digit run. -/
def parseExp (cs : List Char) : Option Int :=
  let sb : Int × List Char :=
    match cs with
    | '+' :: r => (1, r)
    | '-' :: r => (-1, r)
    | r => (1, r)
  let d := takeDigits sb.2
  if d.1.isEmpty || !d.2.isEmpty then none
  else some (sb.1 * (digitsVal d.1 : Int))

/-- Signless numeric body of a decimal string, with optional
`e`/`E` exponent. -/
def parseNumBody (cs : List Char) : Option ℚ :=
  let p := cs.span (fun c => c != 'e' && c != 'E')
  match p.2 with
  | [] => parseMantissa p.1
  | _ :: expPart =>
    match parseMantissa p.1, parseExp expPart with
    | some m, some e => some (m * (10 : ℚ) ^ e)
    | _, _ => none

/-- Signless NaN body of a decimal string (already lowercased):
`nan` or `snan`, optionally followed by a digit payload. -/
def isNanBody : List Char → Bool
  | 'n' :: 'a' :: 'n' :: ds => ds.all Char.isDigit
  | 's' :: 'n' :: 'a' :: 'n' :: ds => ds.all Char.isDigit
  | _ => false

/-- Model of Python `decimal.Decimal(s)` for ASCII strings: strips
surrounding whitespace, removes all underscores, then parses an
optional sign followed by a numeric body, an infinity word, or a NaN
form (case-insensitive).  Returns `none` where the constructor raises
`InvalidOperation`. -/
def pyParseDecimal (s : String) : Option PyDecimal :=
  let cs := (stripChars s.data).filter (fun c => c != '_')
  let signNeg : Bool :=
    match cs with
    | '-' :: _ => true
    | _ => false
  let body : List Char :=
    match cs with
    | '+' :: r => r
    | '-' :: r => r
    | r => r
  let low := body.map Char.toLower
  if low = "inf".toList ∨ low = "infinity".toList then some (.inf signNeg)
  else if isNanBody low then some .nan
  else
    match parseNumBody body with
    | some q => some (.num (if signNeg then -q else q))
    | none => none

/-- One parsed data row of a ledger CSV, as produced by
`csv.DictReader` over the fixed header
`nome, titulo, imgUrl, descricao, quantidade, preco`
(a missing or `None` cell is the empty string, as in the source's
`row.get(...) or ""`). -/
structure CsvRow where
  nome : String
  titulo : String
  imgUrl : String
  descricao : String
  quantidade : String
  preco : String
  deriving DecidableEq, Repr

/-- `ItemInsercao` from `src/core/models.py`. -/
structure ItemInsercao where
  nome : String
  titulo : String
  imgUrl : String
  descricao : String
  quantidade : Int := 1
  preco : PyDecimal := .num 0
  descricao_is_default : Bool := false
  deriving DecidableEq, Repr

/-- `ItemInsercao.identity_key`: the lowercased/trimmed (nome, titulo)
pair. -/
def ItemInsercao.identity_key (i : ItemInsercao) : String × String :=
  (pyLower (pyStrip i.nome), pyLower (pyStrip i.titulo))

/-- `ItemInsercao.from_csv_row`: trims every field, converts
`quantidade` with fallback to 0 and `preco` with comma-to-dot
normalization and fallback to 0.00; always sets the default flag to
false.  A total function: the `ValueError` / `InvalidOperation`
branches of the source are the `none` fallbacks here. -/
def ItemInsercao.from_csv_row (row : CsvRow) : ItemInsercao :=
  let quantidade_raw := pyStrip row.quantidade
  let preco_raw := pyStrip row.preco
  { nome := pyStrip row.nome
    titulo := pyStrip row.titulo
    imgUrl := pyStrip row.imgUrl
    descricao := pyStrip row.descricao
    quantidade :=
      if quantidade_raw.isEmpty then 0
      else
        match pyParseInt quantidade_raw with
        | some n => n
        | none => 0
    preco :=
      if preco_raw.isEmpty then .num 0
      else
        match pyParseDecimal (commaToDot preco_raw) with
        | some d => d
        | none => .num 0
    descricao_is_default := false }

/-- Round a rational to the nearest integer, ties to even
(the rounding Python's fixed-point formatting of `Decimal` uses). -/
def roundHalfEven (q : ℚ) : ℤ :=
  let fl := ⌊q⌋
  let frac := q - (fl : ℚ)
  if frac < 1 / 2 then fl
  else if 1 / 2 < frac then fl + 1
  else if fl % 2 = 0 then fl else fl + 1

/-- Left-pads a two-digit fraction. -/
def pad2 (n : Nat) : String :=
  if n < 10 then "0" ++ toString n else toString n

/-- Fixed-point rendering of a rational with exactly two fractional
digits, model of `f"\x7bq:.2f\x7d"` on a finite `Decimal`. -/
def formatQ2 (q : ℚ) : String :=
  let sign := if q < 0 then "-" else ""
  let n := (roundHalfEven (|q| * 100)).toNat
  sign ++ toString (n / 100) ++ "." ++ pad2 (n % 100)

/-- Two-decimal rendering of a `PyDecimal`. -/
def formatPreco : PyDecimal → String
  | .num q => formatQ2 q
  | .nan => "NaN"
  | .inf b => if b then "-Infinity" else "Infinity"

/-- `ItemInsercao.to_csv_row`: serializes all fields to strings;
the description column is the literal `"DEFAULT"` whenever
`descricao_is_default` is true. -/
def ItemInsercao.to_csv_row (i : ItemInsercao) : CsvRow :=
  { nome := i.nome
    titulo := i.titulo
    imgUrl := i.imgUrl
    descricao := if i.descricao_is_default then "DEFAULT" else i.descricao
    quantidade := toString i.quantidade
    preco := formatPreco i.preco }

/-- A data row is skipped by load and snapshot when every cell is
falsy (Python `not any(row.values())`). -/
def rowIsBlank (r : CsvRow) : Bool :=
  r.nome == "" && r.titulo == "" && r.imgUrl == "" &&
  r.descricao == "" && r.quantidade == "" && r.preco == ""

/-- Per-row body of `carregar_insercao`
(`src/core/insercao_service.py`): parse via `from_csv_row`, then if
the raw description column trims to the literal `"DEFAULT"`, replace
the description with the currently configured default and set the
flag; otherwise force the flag to false. -/
def carregar_row (descricao_padrao : String) (row : CsvRow) : ItemInsercao :=
  let item := ItemInsercao.from_csv_row row
  if pyStrip row.descricao = "DEFAULT" then
    { item with descricao := descricao_padrao, descricao_is_default := true }
  else
    { item with descricao_is_default := false }

/-- `carregar_insercao`: a missing file loads as the empty ledger;
otherwise blank rows are dropped and each remaining row is parsed with
the default-description substitution.  `descricao_padrao` is the value
`Settings.load()` holds at load time. -/
def carregar_insercao (descricao_padrao : String) : Option (List CsvRow) → List ItemInsercao
  | none => []
  | some rows => (rows.filter (fun r => !rowIsBlank r)).map (carregar_row descricao_padrao)

/-- Per-item body of `salvar_insercao`: serialize via `to_csv_row`,
then (redundantly, as in the source) force the description column to
`"DEFAULT"` when the flag is set. -/
def salvar_row (i : ItemInsercao) : CsvRow :=
  let row := i.to_csv_row
  if i.descricao_is_default then { row with descricao := "DEFAULT" } else row

/-- `salvar_insercao`, successful case: the data rows written after
the header. -/
def salvar_insercao (itens : List ItemInsercao) : List CsvRow :=
  itens.map salvar_row

/-- `adicionar_ou_incrementar_item`
(`src/core/insercao_service.py` lines 139-178) on the in-memory item
list: first-match linear scan on `identity_key`; on a hit the matched
record's quantity is incremented in place, otherwise the new item is
appended.  Returns the new list together with the resulting item
(the source's return value). -/
def adicionar_ou_incrementar_item :
    List ItemInsercao → ItemInsercao → List ItemInsercao × ItemInsercao
  | [], novo => ([novo], novo)
  | item :: rest, novo =>
    if item.identity_key = novo.identity_key then
      let updated := { item with quantidade := item.quantidade + novo.quantidade }
      (updated :: rest, updated)
    else
      let r := adicionar_ou_incrementar_item rest novo
      (item :: r.1, r.2)

/-- A JSON value as relevant to `data/config.json` (scalars only;
the config file written by `Settings.save` holds only strings, and
the claims exercise only scalar values). -/
inductive JValue where
  | null
  | str (s : String)
  | int (n : Int)
  | bool (b : Bool)
  deriving DecidableEq, Repr

/-- Python truthiness of a `JValue`. -/
def JValue.truthy : JValue → Bool
  | .null => false
  | .str s => !s.isEmpty
  | .int n => n != 0
  | .bool b => b

/-- The `Settings` dataclass (`src/core/settings.py`).  Paths are
modeled as strings; `descricao_padrao` is kept as a `JValue` because
`load` assigns the raw config value whenever it is truthy, whatever
its type. -/
structure Settings where
  csv_ativo_path : String
  pasta_logs : String
  pasta_imagens : String
  chrome_profile_path : String
  descricao_padrao : JValue
  deriving DecidableEq, Repr

/-- The literal default description from `Settings.defaults`. -/
def default_descricao : String :=
  "Item Delivery Instructions\n\n            1. After payment, the seller will send a private server link via chat.\n            2. Buyer must provide their in-game username for verification.\n            3. Join the private server using the link provided.\n            4. Locate and steal the Brainrot pet that matches your purchase.\n            5. Bring the Brainrot back to your base.\n            6. Once the pet is secured in your base, the transaction is considered successful.\n            -- Don\x27t be a dumb trying to scam me. I record all times.\n\n            Fast – Easy – Secure\n\n            Thank you for your purchase!\n\n            Ignore;\n            Tags:\n            RAINBOW-GOLD-DIAMOND-BLOODROOT-GALAXY-BLOODROT-Secret-La Grande-Garama-Los Combinasionas-Chicleteira Bicicleteira-Graipuss Medussi-La Vacca-Tralalero Tralala-Los-Rainbow-Dragon-Pot Hotspot-Nuclearo-Ban Hammer-HD Admin-Matteo-Esok-Ketupat-Noo my hotspotsitos-Sphagetti-Spag-toualetti-Sphageti-Burguro-Fryuro-Yin yang-dragon caneloni-Strawberry Elephant-Los 67\n            "

/-- `Settings.defaults`, parameterized by the runtime base directory
(`Path(__file__).resolve().parents[2]`). -/
def Settings.defaults (base_dir : String) : Settings :=
  { csv_ativo_path := base_dir ++ "/data/items.csv"
    pasta_logs := base_dir ++ "/data/logs"
    pasta_imagens := base_dir ++ "/data/img"
    chrome_profile_path := base_dir ++ "/chrome-profile"
    descricao_padrao := .str default_descricao }

/-- Outcome of the guarded read at the top of `Settings.load` for the
inputs that reach the per-field merge or a caught fallback: the file
is missing, reading or JSON-decoding failed with one of the two
caught exception classes (`OSError`, `json.JSONDecodeError`), or a
JSON object was obtained.  This is NOT the complete model of the
on-disk states: a config whose bytes are not UTF-8 or whose top-level
JSON value is not an object makes the source raise an uncaught
exception instead of reaching any of these outcomes — those states
live in `ConfigBytes` below and are handled by
`Settings.loadFromDisk`, the complete model of the function. -/
inductive ConfigFile where
  | missing
  | unparsable
  | parsed (raw : List (String × JValue))
  deriving DecidableEq, Repr

/-- Python `raw.get(key)`: the value of the last occurrence of the
key (JSON keeps the last duplicate), `None` when absent. -/
def rawGet (raw : List (String × JValue)) (key : String) : JValue :=
  match (raw.filter (fun kv => kv.1 == key)).getLast? with
  | some kv => kv.2
  | none => .null

/-- The `_path_or_default` helper inside `Settings.load`: a present
string whose strip is nonempty overrides the default; anything else
falls back.  The `chrome_profile_path` branch of the source applies
the same condition. -/
def path_or_default (raw : List (String × JValue)) (key : String) (d : String) : String :=
  match rawGet raw key with
  | .str s => if pyStrip s ≠ "" then s else d
  | _ => d

/-- `Settings.load` (`src/core/settings.py` lines 91-143) on the
outcomes of `ConfigFile`; the uncaught error paths of the source are
in `Settings.loadFromDisk` below, which feeds this function on the
object path. -/
def Settings.load (base_dir : String) : ConfigFile → Settings
  | .missing => Settings.defaults base_dir
  | .unparsable => Settings.defaults base_dir
  | .parsed raw =>
    let d := Settings.defaults base_dir
    { csv_ativo_path := path_or_default raw "csv_ativo_path" d.csv_ativo_path
      pasta_logs := path_or_default raw "pasta_logs" d.pasta_logs
      pasta_imagens := path_or_default raw "pasta_imagens" d.pasta_imagens
      chrome_profile_path := path_or_default raw "chrome_profile_path" d.chrome_profile_path
      descricao_padrao :=
        let v := rawGet raw "descricao_padrao"
        if v.truthy then v else d.descricao_padrao }

/-- A top-level JSON document as returned by `json.load`: either an
object, or any other JSON value (a number, string, boolean, null —
arrays behave identically and are omitted from `JValue`).  `json.load`
returns non-object documents without complaint; `Settings.load` then
crashes on them at the first `raw.get`. -/
inductive JTop where
  | obj (raw : List (String × JValue))
  | nonObject (v : JValue)
  deriving DecidableEq, Repr

/-- Complete on-disk state of `data/config.json` as `Settings.load`
can encounter it: missing; present but failing to read with an
`OSError`; present with bytes that are not valid UTF-8 (so `json.load`
raises `UnicodeDecodeError`, which is a `ValueError`, not one of the
two caught classes); present as UTF-8 text that is not valid JSON
(`json.JSONDecodeError`, caught); or a JSON document. -/
inductive ConfigBytes where
  | missing
  | osError
  | notUtf8
  | notJson
  | doc (d : JTop)
  deriving DecidableEq, Repr

/-- `Settings.load` as a function of the full on-disk state, with its
error behavior.  The source catches only `(json.JSONDecodeError,
OSError)` (`settings.py` line 113): a missing file, an OS read error
and non-JSON text all fall back to the defaults, but non-UTF-8 bytes
raise an uncaught `UnicodeDecodeError` inside `json.load`, and a
valid JSON document whose top level is not an object raises an
uncaught `AttributeError` at the first `raw.get` (`settings.py` lines
120/127/135).  The object path is the approved per-field merge
`Settings.load`. -/
def Settings.loadFromDisk (base_dir : String) : ConfigBytes → Except String Settings
  | .missing => .ok (Settings.defaults base_dir)
  | .osError => .ok (Settings.defaults base_dir)
  | .notJson => .ok (Settings.defaults base_dir)
  | .notUtf8 => .error "UnicodeDecodeError"
  | .doc (.nonObject _) => .error "AttributeError"
  | .doc (.obj raw) => .ok (Settings.load base_dir (.parsed raw))

/-- `Settings.load` together with its effect on the on-disk
configuration: the source performs no write anywhere in `load` (and
none happens when an exception escapes), so the disk state is
returned unchanged in every case — defaults are synthesized but never
persisted. -/
def Settings.loadIO (base_dir : String) (disk : ConfigBytes) :
    Except String Settings × ConfigBytes :=
  (Settings.loadFromDisk base_dir disk, disk)

/-- The five key/value pairs `Settings.save` writes (`json.dump`,
paths via `str`, the raw description value as-is). -/
def Settings.saveFields (s : Settings) : List (String × JValue) :=
  [("csv_ativo_path", .str s.csv_ativo_path),
   ("pasta_logs", .str s.pasta_logs),
   ("pasta_imagens", .str s.pasta_imagens),
   ("chrome_profile_path", .str s.chrome_profile_path),
   ("descricao_padrao", s.descricao_padrao)]

/-- `Settings.save`: the parsed outcome a subsequent read of the
written file produces. -/
def Settings.save (s : Settings) : ConfigFile :=
  .parsed s.saveFields

/-- `Settings.save` at the disk level: the written file is a JSON
object holding the five keys. -/
def Settings.saveDisk (s : Settings) : ConfigBytes :=
  .doc (.obj s.saveFields)

/-- One row of a snapshot file: the six ledger columns copied from the
source row plus the appended `data_hora_insercao` column. -/
structure SnapRow where
  nome : String
  titulo : String
  imgUrl : String
  descricao : String
  quantidade : String
  preco : String
  data_hora_insercao : String
  deriving DecidableEq, Repr

/-- `registrar_log_insercao` (`src/core/log_insercoes_service.py`).
Inputs: the log directory and default description from the loaded
`Settings`, the source ledger file (`none` when the path does not
exist), and the two formatted timestamps.  The source raises
`FileNotFoundError` before creating the log directory or opening any
output file, so the error case carries no output; the success case
returns the log path and the written rows (each source row copied
verbatim with the timestamp column appended, blank rows skipped). -/
def registrar_log_insercao (pasta_logs descricao_padrao : String)
    (src : Option (List CsvRow)) (ts_nome ts_coluna : String) :
    Except String (String × List SnapRow) :=
  match src with
  | none => .error "CSV da inserção não encontrado"
  | some rows =>
    .ok (pasta_logs ++ "/insercao_" ++ ts_nome ++ "_log.csv",
      (rows.filter (fun r => !rowIsBlank r)).map
        (fun r => ⟨r.nome, r.titulo, r.imgUrl, r.descricao, r.quantidade, r.preco, ts_coluna⟩))

/-- One physical line of a ledger CSV file: the header line or one
serialized record. -/
inductive CsvLine where
  | header
  | record (r : CsvRow)
  deriving DecidableEq, Repr

/-- Line-by-line write loop with fault injection: `fuel` line writes
succeed, after which every write fails; the lines already written
stay in the file. -/
def writeRows : Nat → List CsvLine → List CsvLine → List CsvLine × Bool
  | _, written, [] => (written, true)
  | 0, written, _ :: _ => (written, false)
  | fuel + 1, written, l :: rest => writeRows fuel (written ++ [l]) rest

/-- `salvar_insercao` with its file effect under fault injection.
The source opens the ledger with mode `"w"`, which truncates the file
before any line is written, so the prior content does not appear in
the result: on failure after `fuel` successful line writes the file
holds exactly the lines written so far. -/
def salvar_insercao_fallible (fuel : Nat) (prior : Option (List CsvLine))
    (itens : List ItemInsercao) : Option (List CsvLine) × Bool :=
  let lines := CsvLine.header :: itens.map (fun i => CsvLine.record (salvar_row i))
  let r := writeRows fuel [] lines
  (some r.1, r.2)

/-- `runInsertions`: a sequence of `adicionar_ou_incrementar_item`
calls starting from a fresh ledger (header only, no records). -/
def runInsertions (ops : List ItemInsercao) : List ItemInsercao :=
  ops.foldl (fun l x => (adicionar_ou_incrementar_item l x).1) []

/-- Total quantity carried by the records of `l` whose identity key
is `k`. -/
def totalQty (l : List ItemInsercao) (k : String × String) : Int :=
  (l.map (fun i => if i.identity_key = k then i.quantidade else 0)).sum

/-- No two records of the list share an identity key. -/
def DistinctKeys (l : List ItemInsercao) : Prop :=
  l.Pairwise (fun a b => a.identity_key ≠ b.identity_key)

/-- Concrete sample item: a cat listing with quantity 2. -/
def itemCat : ItemInsercao :=
  { nome := "Cat", titulo := "Cat", imgUrl := "cat.png", descricao := "d",
    quantidade := 2, preco := .num (3 / 2), descricao_is_default := false }

/-- Concrete sample item sharing `itemCat`'s identity key up to
trim/lowercase, with quantity 3 and a different price. -/
def itemCat2 : ItemInsercao :=
  { nome := "cat ", titulo := "CAT", imgUrl := "cat2.png", descricao := "e",
    quantidade := 3, preco := .num 10, descricao_is_default := false }

/-- Concrete sample item with an identity key different from
`itemCat`'s. -/
def itemDog : ItemInsercao :=
  { nome := "Dog", titulo := "Dog", imgUrl := "dog.png", descricao := "f",
    quantidade := 4, preco := .num 2, descricao_is_default := false }

/-- Concrete sample ledger row. -/
def rowOld : CsvRow :=
  { nome := "old", titulo := "old", imgUrl := "", descricao := "",
    quantidade := "1", preco := "1.00" }

/-- Concrete sample item flagged as carrying the default description. -/
def itemDefault : ItemInsercao :=
  { nome := "n", titulo := "t", imgUrl := "u", descricao := "orig",
    quantidade := 1, preco := .num 1, descricao_is_default := true }

/-- Concrete sample row whose description column trims to the
`"DEFAULT"` placeholder. -/
def rowDefaulted : CsvRow :=
  { nome := "a", titulo := "b", imgUrl := "c", descricao := " DEFAULT ",
    quantidade := "1", preco := "2" }

/-- Concrete sample row whose description column is the literal
`"DEFAULT"` placeholder. -/
def rowLiteralDefault : CsvRow :=
  { nome := "a", titulo := "b", imgUrl := "c", descricao := "DEFAULT",
    quantidade := "1", preco := "2" }

/-! ## Lemmas about the identity-merge engine -/

theorem identity_key_update (i : ItemInsercao) (q : Int) :
    ({ i with quantidade := q } : ItemInsercao).identity_key = i.identity_key := rfl

theorem add_no_match (l : List ItemInsercao) (x : ItemInsercao)
    (h : ∀ i ∈ l, i.identity_key ≠ x.identity_key) :
    adicionar_ou_incrementar_item l x = (l ++ [x], x) := by
  induction l with
  | nil => simp [adicionar_ou_incrementar_item]
  | cons a t ih =>
    have ha : a.identity_key ≠ x.identity_key := h a (List.mem_cons_self a t)
    have ht : ∀ i ∈ t, i.identity_key ≠ x.identity_key :=
      fun i hi => h i (List.mem_cons_of_mem a hi)
    simp [adicionar_ou_incrementar_item, ha, ih ht]

theorem add_first_match (pre post : List ItemInsercao) (m x : ItemInsercao)
    (hpre : ∀ i ∈ pre, i.identity_key ≠ x.identity_key)
    (hm : m.identity_key = x.identity_key) :
    adicionar_ou_incrementar_item (pre ++ m :: post) x =
      (pre ++ { m with quantidade := m.quantidade + x.quantidade } :: post,
       { m with quantidade := m.quantidade + x.quantidade }) := by
  induction pre with
  | nil => simp [adicionar_ou_incrementar_item, hm]
  | cons a t ih =>
    have ha : a.identity_key ≠ x.identity_key := hpre a (List.mem_cons_self a t)
    have ht : ∀ i ∈ t, i.identity_key ≠ x.identity_key :=
      fun i hi => hpre i (List.mem_cons_of_mem a hi)
    simp [adicionar_ou_incrementar_item, ha, ih ht]

theorem add_mem_key (l : List ItemInsercao) (x : ItemInsercao) :
    ∀ y ∈ (adicionar_ou_incrementar_item l x).1,
      y.identity_key = x.identity_key ∨ y.identity_key ∈ l.map ItemInsercao.identity_key := by
  induction l with
  | nil =>
    intro y hy
    simp [adicionar_ou_incrementar_item] at hy
    subst hy
    exact Or.inl rfl
  | cons a t ih =>
    intro y hy
    by_cases hk : a.identity_key = x.identity_key
    · simp only [adicionar_ou_incrementar_item, if_pos hk, List.mem_cons] at hy
      rcases hy with hy | hy
      · subst hy
        exact Or.inl hk
      · right
        simp only [List.map_cons, List.mem_cons]
        exact Or.inr (List.mem_map_of_mem ItemInsercao.identity_key hy)
    · simp only [adicionar_ou_incrementar_item, if_neg hk, List.mem_cons] at hy
      rcases hy with hy | hy
      · subst hy
        right
        simp
      · rcases ih y hy with h | h
        · exact Or.inl h
        · right
          simp only [List.map_cons, List.mem_cons]
          exact Or.inr h

theorem add_distinct (l : List ItemInsercao) (x : ItemInsercao) (hl : DistinctKeys l) :
    DistinctKeys (adicionar_ou_incrementar_item l x).1 := by
  induction l with
  | nil => simp [adicionar_ou_incrementar_item, DistinctKeys]
  | cons a t ih =>
    rcases List.pairwise_cons.mp hl with ⟨h1, h2⟩
    by_cases hk : a.identity_key = x.identity_key
    · simp only [adicionar_ou_incrementar_item, if_pos hk]
      exact List.pairwise_cons.mpr ⟨fun b hb => h1 b hb, h2⟩
    · simp only [adicionar_ou_incrementar_item, if_neg hk]
      refine List.pairwise_cons.mpr ⟨?_, ih h2⟩
      intro b hb
      rcases add_mem_key t x b hb with h | h
      · rw [h]
        exact hk
      · rcases List.mem_map.mp h with ⟨c, hc, hkey⟩
        rw [← hkey]
        exact h1 c hc

theorem add_totalQty (l : List ItemInsercao) (x : ItemInsercao) (k : String × String) :
    totalQty (adicionar_ou_incrementar_item l x).1 k =
      totalQty l k + (if x.identity_key = k then x.quantidade else 0) := by
  induction l with
  | nil => simp [adicionar_ou_incrementar_item, totalQty]
  | cons a t ih =>
    by_cases hk : a.identity_key = x.identity_key
    · simp only [adicionar_ou_incrementar_item, if_pos hk, totalQty, List.map_cons,
        List.sum_cons]
      have hupd : ({ a with quantidade := a.quantidade + x.quantidade } :
          ItemInsercao).identity_key = a.identity_key := rfl
      rw [hupd]
      rcases eq_or_ne a.identity_key k with hak | hak
      · rw [if_pos hak, if_pos hak, if_pos (hk.symm.trans hak)]
        ring
      · rw [if_neg hak, if_neg hak, if_neg (fun hc : x.identity_key = k => hak (hk.trans hc))]
        ring
    · simp only [adicionar_ou_incrementar_item, if_neg hk, totalQty, List.map_cons,
        List.sum_cons]
      have := ih
      simp only [totalQty] at this
      rw [this]
      ring

theorem foldl_add_inv (ops : List ItemInsercao) :
    ∀ l : List ItemInsercao, DistinctKeys l →
      DistinctKeys (ops.foldl (fun acc x => (adicionar_ou_incrementar_item acc x).1) l) ∧
      ∀ k, totalQty (ops.foldl (fun acc x => (adicionar_ou_incrementar_item acc x).1) l) k =
        totalQty l k + totalQty ops k := by
  induction ops with
  | nil =>
    intro l hl
    exact ⟨hl, fun k => by simp [totalQty]⟩
  | cons o os ih =>
    intro l hl
    have h1 : DistinctKeys (adicionar_ou_incrementar_item l o).1 := add_distinct l o hl
    obtain ⟨hd, hq⟩ := ih (adicionar_ou_incrementar_item l o).1 h1
    refine ⟨by simpa using hd, ?_⟩
    intro k
    have hstep := add_totalQty l o k
    have hqk := hq k
    simp only [List.foldl_cons]
    rw [hqk, hstep]
    simp only [totalQty, List.map_cons, List.sum_cons]
    ring

/-- C1: for every sequence of `adicionar_ou_incrementar_item` calls
starting from a fresh ledger (no records), the resulting ledger has no
two records with equal `identity_key`, and for each identity key the
total quantity in the ledger equals the sum of the quantities of the
inserted items whose key equals that key. -/
theorem merge_invariant_C1 (ops : List ItemInsercao) :
    DistinctKeys (runInsertions ops) ∧
    ∀ k : String × String, totalQty (runInsertions ops) k = totalQty ops k := by
  obtain ⟨hd, hq⟩ := foldl_add_inv ops [] (by simp [DistinctKeys])
  refine ⟨hd, fun k => ?_⟩
  have := hq k
  simpa [runInsertions, totalQty] using this

/-- C2: when `adicionar_ou_incrementar_item` finds an existing record
with the same identity key (first match in scan order), it increments
that record's quantity by the new item's quantity in place — leaving
the record's name, title, image reference, description, price and
default flag untouched — and returns the mutated existing record;
when no record matches, it appends the new item and returns it
unchanged. -/
theorem add_or_increment_C2 :
    (∀ (pre post : List ItemInsercao) (m x : ItemInsercao),
      (∀ i ∈ pre, i.identity_key ≠ x.identity_key) →
      m.identity_key = x.identity_key →
      adicionar_ou_incrementar_item (pre ++ m :: post) x =
        (pre ++ { m with quantidade := m.quantidade + x.quantidade } :: post,
         { m with quantidade := m.quantidade + x.quantidade })) ∧
    (∀ (l : List ItemInsercao) (x : ItemInsercao),
      (∀ i ∈ l, i.identity_key ≠ x.identity_key) →
      adicionar_ou_incrementar_item l x = (l ++ [x], x)) :=
  ⟨fun pre post m x hpre hm => add_first_match pre post m x hpre hm,
   fun l x h => add_no_match l x h⟩

theorem add_or_increment_C2_witness :
    adicionar_ou_incrementar_item [itemCat] itemCat2 =
      ([{ itemCat with quantidade := 5 }], { itemCat with quantidade := 5 }) ∧
    adicionar_ou_incrementar_item [itemCat] itemDog = ([itemCat, itemDog], itemDog) := by
  constructor
  · have h := add_or_increment_C2.1 [] [] itemCat itemCat2 (by simp) (by decide)
    simpa using h
  · have h := add_or_increment_C2.2 [itemCat] itemDog (by decide)
    simpa using h

theorem add_frame_get (l : List ItemInsercao) (x : ItemInsercao) :
    ∀ (j : Nat) (hj : j < l.length),
      l[j].identity_key ≠ x.identity_key →
      (adicionar_ou_incrementar_item l x).1[j]? = some l[j] := by
  induction l with
  | nil =>
    intro j hj
    exact absurd hj (by simp)
  | cons a t ih =>
    intro j hj hne
    by_cases hk : a.identity_key = x.identity_key
    · simp only [adicionar_ou_incrementar_item, if_pos hk]
      cases j with
      | zero =>
        exact absurd hk (by simpa using hne)
      | succ n =>
        have hn : n < t.length := by simpa using hj
        simpa using List.getElem?_eq_getElem hn
    · simp only [adicionar_ou_incrementar_item, if_neg hk]
      cases j with
      | zero => simp
      | succ n =>
        have hn : n < t.length := by simpa using hj
        simpa using ih n hn (by simpa using hne)

theorem add_set_at_match (l : List ItemInsercao) (x : ItemInsercao) :
    ∀ (i : Nat) (hi : i < l.length),
      (∀ (j : Nat) (hj : j < l.length), j < i → l[j].identity_key ≠ x.identity_key) →
      l[i].identity_key = x.identity_key →
      (adicionar_ou_incrementar_item l x).1 =
        l.set i { l[i] with quantidade := l[i].quantidade + x.quantidade } := by
  induction l with
  | nil =>
    intro i hi
    exact absurd hi (by simp)
  | cons a t ih =>
    intro i hi hfirst hmatch
    cases i with
    | zero =>
      have hk : a.identity_key = x.identity_key := by simpa using hmatch
      simp [adicionar_ou_incrementar_item, if_pos hk, List.set]
    | succ n =>
      have hk : a.identity_key ≠ x.identity_key := by
        have h0 := hfirst 0 (by simp) (Nat.succ_pos n)
        simpa using h0
      have hn : n < t.length := by simpa using hi
      have hfirst' : ∀ (j : Nat) (hj : j < t.length), j < n →
          t[j].identity_key ≠ x.identity_key := by
        intro j hj hjn
        have := hfirst (j + 1) (by simpa using hj) (by omega)
        simpa using this
      have hmatch' : t[n].identity_key = x.identity_key := by simpa using hmatch
      simp only [adicionar_ou_incrementar_item, if_neg hk, List.set]
      simpa using ih n hn hfirst' hmatch'

/-- C9: `adicionar_ou_incrementar_item` has a frame property: every
pre-existing record whose identity key differs from the new item's key
is left unchanged at its original position; when no record matches the
new item is appended at the end (so all prior positions are
preserved); when a match exists the ledger is the old one with only
the first matching position overwritten by the quantity-incremented
record. -/
theorem frame_C9 (l : List ItemInsercao) (x : ItemInsercao) :
    (∀ (j : Nat) (hj : j < l.length),
        l[j].identity_key ≠ x.identity_key →
        (adicionar_ou_incrementar_item l x).1[j]? = some l[j]) ∧
    ((∀ i ∈ l, i.identity_key ≠ x.identity_key) →
        (adicionar_ou_incrementar_item l x).1 = l ++ [x]) ∧
    (∀ (i : Nat) (hi : i < l.length),
        (∀ (j : Nat) (hj : j < l.length), j < i → l[j].identity_key ≠ x.identity_key) →
        l[i].identity_key = x.identity_key →
        (adicionar_ou_incrementar_item l x).1 =
          l.set i { l[i] with quantidade := l[i].quantidade + x.quantidade }) :=
  ⟨add_frame_get l x,
   fun h => by rw [add_no_match l x h],
   add_set_at_match l x⟩

theorem frame_C9_witness :
    (adicionar_ou_incrementar_item [itemCat, itemDog] itemCat2).1[1]? = some itemDog ∧
    (adicionar_ou_incrementar_item [itemCat] itemDog).1 = [itemCat] ++ [itemDog] ∧
    (adicionar_ou_incrementar_item [itemDog, itemCat] itemCat2).1 =
      [itemDog, { itemCat with quantidade := 5 }] := by
  refine ⟨?_, ?_, ?_⟩
  · exact (frame_C9 [itemCat, itemDog] itemCat2).1 1 (by decide) (by decide)
  · exact (frame_C9 [itemCat] itemDog).2.1 (by decide)
  · rw [(frame_C9 [itemDog, itemCat] itemCat2).2.2 1 (by decide)
      (by
        intro j hj hlt
        have hj0 : j = 0 := by omega
        subst hj0
        simp only [List.getElem_cons_zero]
        decide)
      (by decide)]
    simp [List.set, itemCat, itemCat2]

/-! ## The DEFAULT-description placeholder -/

/-- C3: saving a record whose `descricao_is_default` flag is true
writes the literal `"DEFAULT"` to the description column regardless of
the in-memory text; loading a row whose raw description trims to
`"DEFAULT"` replaces the description with the default configured at
load time and sets the flag; concretely, a default-flagged record
saved with description `"X"` and reloaded while the configured default
is `"B"` comes back with description `"B"` and the flag set. -/
theorem default_description_roundtrip_C3 :
    (∀ i : ItemInsercao, i.descricao_is_default = true →
        (salvar_row i).descricao = "DEFAULT") ∧
    (∀ (padrao : String) (row : CsvRow), pyStrip row.descricao = "DEFAULT" →
        (carregar_row padrao row).descricao = padrao ∧
        (carregar_row padrao row).descricao_is_default = true) ∧
    (∀ i : ItemInsercao, i.descricao_is_default = true →
        (carregar_insercao "B" (some (salvar_insercao [{ i with descricao := "X" }]))).map
          (fun j => (j.descricao, j.descricao_is_default)) = [("B", true)]) := by
  refine ⟨?_, ?_, ?_⟩
  · intro i hi
    simp [salvar_row, ItemInsercao.to_csv_row, hi]
  · intro padrao row h
    constructor <;> simp [carregar_row, h]
  · intro i hi
    have hrow : salvar_row { i with descricao := "X" } =
        { nome := i.nome, titulo := i.titulo, imgUrl := i.imgUrl, descricao := "DEFAULT",
          quantidade := toString i.quantidade, preco := formatPreco i.preco } := by
      simp [salvar_row, ItemInsercao.to_csv_row, hi]
    simp only [salvar_insercao, List.map_cons, List.map_nil, hrow, carregar_insercao]
    have hblank : rowIsBlank
        { nome := i.nome, titulo := i.titulo, imgUrl := i.imgUrl, descricao := "DEFAULT",
          quantidade := toString i.quantidade, preco := formatPreco i.preco } = false := by
      simp [rowIsBlank, show ("DEFAULT" == "") = false from rfl]
    simp only [List.filter, hblank, Bool.not_false, List.filter_nil, List.map_cons,
      List.map_nil]
    have hdef : (pyStrip "DEFAULT" = "DEFAULT") := by decide
    simp [carregar_row, hdef]

theorem default_description_roundtrip_C3_witness :
    (salvar_row itemDefault).descricao = "DEFAULT" ∧
    ((carregar_row "B" rowDefaulted).descricao = "B" ∧
      (carregar_row "B" rowDefaulted).descricao_is_default = true) ∧
    (carregar_insercao "B" (some (salvar_insercao [{ itemDefault with descricao := "X" }]))).map
      (fun j => (j.descricao, j.descricao_is_default)) = [("B", true)] := by
  refine ⟨?_, ?_, ?_⟩
  · exact default_description_roundtrip_C3.1 itemDefault (by decide)
  · exact default_description_roundtrip_C3.2.1 "B" rowDefaulted (by decide)
  · exact default_description_roundtrip_C3.2.2 itemDefault (by decide)

/-! ## Configuration store -/

/-- C4, counterexample: a configuration whose `descricao_padrao` value
is present but wrongly typed (the JSON number 42, which is truthy) is
kept by `Settings.load` instead of falling back to that field's
default, refuting "an absent, empty, or wrong-typed value falls back
to that field's individual default" for this field. -/
theorem settings_defaulting_C4_counterexample :
    (Settings.load "/app" (.parsed [("descricao_padrao", JValue.int 42)])).descricao_padrao
      = JValue.int 42 ∧
    JValue.int 42 ≠ (Settings.defaults "/app").descricao_padrao := by
  refine ⟨rfl, ?_⟩
  intro h
  exact JValue.noConfusion h

/-- C4 (amended): each field is defaulted independently: a file
holding only the default-description key yields the defaults with
only `descricao_padrao` overridden; a path field is overridden exactly
by a present string with nonempty strip and falls back on any
non-string value; `descricao_padrao` keeps any present truthy value
(even a wrongly typed one) and falls back exactly on falsy values. -/
theorem settings_defaulting_C4 (base s : String) (v : JValue) :
    Settings.load base (.parsed [("descricao_padrao", JValue.str "custom")]) =
      { Settings.defaults base with descricao_padrao := JValue.str "custom" } ∧
    (pyStrip s ≠ "" →
      Settings.load base (.parsed [("csv_ativo_path", JValue.str s)]) =
        { Settings.defaults base with csv_ativo_path := s }) ∧
    ((∀ t : String, v ≠ JValue.str t) →
      (Settings.load base (.parsed [("csv_ativo_path", v)])).csv_ativo_path =
        (Settings.defaults base).csv_ativo_path) ∧
    (v.truthy = true →
      (Settings.load base (.parsed [("descricao_padrao", v)])).descricao_padrao = v) ∧
    (v.truthy = false →
      (Settings.load base (.parsed [("descricao_padrao", v)])).descricao_padrao =
        (Settings.defaults base).descricao_padrao) := by
  refine ⟨?_, ?_, ?_, ?_, ?_⟩
  · have hd : rawGet [("descricao_padrao", JValue.str "custom")] "descricao_padrao"
        = JValue.str "custom" := rfl
    simp [Settings.load, path_or_default, hd,
      show rawGet [("descricao_padrao", JValue.str "custom")] "csv_ativo_path"
        = JValue.null from rfl,
      show rawGet [("descricao_padrao", JValue.str "custom")] "pasta_logs"
        = JValue.null from rfl,
      show rawGet [("descricao_padrao", JValue.str "custom")] "pasta_imagens"
        = JValue.null from rfl,
      show rawGet [("descricao_padrao", JValue.str "custom")] "chrome_profile_path"
        = JValue.null from rfl,
      JValue.truthy, show ("custom".isEmpty) = false from rfl]
  · intro hs
    simp [Settings.load, path_or_default, hs,
      show rawGet [("csv_ativo_path", JValue.str s)] "csv_ativo_path"
        = JValue.str s from rfl,
      show rawGet [("csv_ativo_path", JValue.str s)] "pasta_logs"
        = JValue.null from rfl,
      show rawGet [("csv_ativo_path", JValue.str s)] "pasta_imagens"
        = JValue.null from rfl,
      show rawGet [("csv_ativo_path", JValue.str s)] "chrome_profile_path"
        = JValue.null from rfl,
      show rawGet [("csv_ativo_path", JValue.str s)] "descricao_padrao"
        = JValue.null from rfl,
      JValue.truthy]
  · intro hv
    have hg : rawGet [("csv_ativo_path", v)] "csv_ativo_path" = v := rfl
    cases v with
    | null => simp [Settings.load, path_or_default, hg]
    | str t => exact absurd rfl (hv t)
    | int n => simp [Settings.load, path_or_default, hg]
    | bool b => simp [Settings.load, path_or_default, hg]
  · intro hv
    have hg : rawGet [("descricao_padrao", v)] "descricao_padrao" = v := rfl
    simp [Settings.load, hg, hv]
  · intro hv
    have hg : rawGet [("descricao_padrao", v)] "descricao_padrao" = v := rfl
    simp [Settings.load, hg, hv]

theorem settings_defaulting_C4_witness :
    Settings.load "/app" (.parsed [("descricao_padrao", JValue.str "custom")]) =
      { Settings.defaults "/app" with descricao_padrao := JValue.str "custom" } ∧
    Settings.load "/app" (.parsed [("csv_ativo_path", JValue.str "/x.csv")]) =
      { Settings.defaults "/app" with csv_ativo_path := "/x.csv" } ∧
    (Settings.load "/app" (.parsed [("csv_ativo_path", JValue.int 42)])).csv_ativo_path =
      (Settings.defaults "/app").csv_ativo_path ∧
    (Settings.load "/app" (.parsed [("descricao_padrao", JValue.int 42)])).descricao_padrao =
      JValue.int 42 ∧
    (Settings.load "/app" (.parsed [("descricao_padrao", JValue.str "")])).descricao_padrao =
      (Settings.defaults "/app").descricao_padrao := by
  refine ⟨(settings_defaulting_C4 "/app" "/x.csv" (JValue.int 42)).1,
    (settings_defaulting_C4 "/app" "/x.csv" (JValue.int 42)).2.1 (by decide),
    (settings_defaulting_C4 "/app" "/x.csv" (JValue.int 42)).2.2.1 ?_,
    (settings_defaulting_C4 "/app" "/x.csv" (JValue.int 42)).2.2.2.1 (by decide),
    (settings_defaulting_C4 "/app" "/x.csv" (JValue.str "")).2.2.2.2 (by decide)⟩
  intro t h
  exact JValue.noConfusion h

/-- C5, counterexample, refuting both prongs of the claim at concrete
inputs.  Persistence: loading with a missing configuration file
returns the defaults but performs no write — afterwards the disk is
still `missing`, not the persisted defaults.  Never-an-error: a
structurally invalid configuration that is valid JSON with a
non-object top level (here the document `42`) is not healed —
`Settings.load` surfaces an uncaught `AttributeError` instead of
returning the defaults. -/
theorem settings_heal_C5_counterexample :
    (Settings.loadIO "/app" ConfigBytes.missing).2 = ConfigBytes.missing ∧
    ConfigBytes.missing ≠ Settings.saveDisk (Settings.defaults "/app") ∧
    Settings.loadFromDisk "/app" (ConfigBytes.doc (JTop.nonObject (JValue.int 42))) =
      Except.error "AttributeError" := by
  refine ⟨rfl, ?_, rfl⟩
  intro h
  rw [Settings.saveDisk] at h
  exact ConfigBytes.noConfusion h

/-- C5 (amended): only the caught corruption cases — a missing file,
an OS read error, UTF-8 text that is not valid JSON — are healed
silently: `Settings.load` returns the hard-coded defaults with no
error, but does NOT persist them; the on-disk state is left unchanged
in every case, healed or not.  The remaining corruption cases are
surfaced to the caller as uncaught exceptions, not healed: bytes that
are not valid UTF-8 raise `UnicodeDecodeError` inside `json.load`,
and a valid JSON document whose top level is not an object raises
`AttributeError` at the first `raw.get`. -/
theorem settings_heal_C5 (base : String) (v : JValue) :
    Settings.loadIO base ConfigBytes.missing =
      (Except.ok (Settings.defaults base), ConfigBytes.missing) ∧
    Settings.loadIO base ConfigBytes.osError =
      (Except.ok (Settings.defaults base), ConfigBytes.osError) ∧
    Settings.loadIO base ConfigBytes.notJson =
      (Except.ok (Settings.defaults base), ConfigBytes.notJson) ∧
    Settings.loadIO base ConfigBytes.notUtf8 =
      (Except.error "UnicodeDecodeError", ConfigBytes.notUtf8) ∧
    Settings.loadIO base (ConfigBytes.doc (JTop.nonObject v)) =
      (Except.error "AttributeError", ConfigBytes.doc (JTop.nonObject v)) :=
  ⟨rfl, rfl, rfl, rfl, rfl⟩

/-! ## Row-parse safety -/

/-- C6: `from_csv_row` never fails (it is a total function in this
embedding, as the source catches every parse exception): a quantity
field that is empty or not a base-10 integer yields quantity 0, a
price field that is empty or unparsable yields price 0.00, and a comma
decimal separator is accepted and normalized to a dot. -/
theorem parse_safety_C6 :
    (∀ row : CsvRow, pyParseInt (pyStrip row.quantidade) = none →
        (ItemInsercao.from_csv_row row).quantidade = 0) ∧
    (∀ row : CsvRow, pyParseDecimal (commaToDot (pyStrip row.preco)) = none →
        (ItemInsercao.from_csv_row row).preco = .num 0) ∧
    (ItemInsercao.from_csv_row ⟨"n", "t", "u", "d", "abc", "xyz"⟩).quantidade = 0 ∧
    (ItemInsercao.from_csv_row ⟨"n", "t", "u", "d", "", ""⟩).quantidade = 0 ∧
    (ItemInsercao.from_csv_row ⟨"n", "t", "u", "d", "", ""⟩).preco = .num 0 ∧
    (ItemInsercao.from_csv_row ⟨"n", "t", "u", "d", "7", "3,5"⟩).quantidade = 7 ∧
    (ItemInsercao.from_csv_row ⟨"n", "t", "u", "d", "7", "3,5"⟩).preco = .num (7 / 2) := by
  refine ⟨?_, ?_, by decide, by decide, rfl, by decide, ?_⟩
  · intro row h
    by_cases he : (pyStrip row.quantidade).isEmpty
    · simp [ItemInsercao.from_csv_row, he]
    · simp [ItemInsercao.from_csv_row, he, h]
  · intro row h
    by_cases he : (pyStrip row.preco).isEmpty
    · simp [ItemInsercao.from_csv_row, he]
    · simp [ItemInsercao.from_csv_row, he, h]
  · have e : (ItemInsercao.from_csv_row ⟨"n", "t", "u", "d", "7", "3,5"⟩).preco =
        .num ((digitsVal ['3'] : ℚ) + (digitsVal ['5'] : ℚ) / (10 : ℚ) ^ (1 : ℕ)) := rfl
    rw [e, show digitsVal ['3'] = 3 from by decide, show digitsVal ['5'] = 5 from by decide]
    norm_num

theorem parse_safety_C6_witness :
    pyParseInt (pyStrip "abc") = none ∧
    (ItemInsercao.from_csv_row ⟨"n", "t", "u", "d", "abc", "xyz"⟩).quantidade = 0 ∧
    pyParseDecimal (commaToDot (pyStrip "xyz")) = none ∧
    (ItemInsercao.from_csv_row ⟨"n", "t", "u", "d", "abc", "xyz"⟩).preco = .num 0 :=
  ⟨by decide,
   parse_safety_C6.1 ⟨"n", "t", "u", "d", "abc", "xyz"⟩ (by decide),
   by decide,
   parse_safety_C6.2.1 ⟨"n", "t", "u", "d", "abc", "xyz"⟩ (by decide)⟩

/-! ## Snapshot log -/

/-- C7: snapshotting a path where no ledger file exists signals the
not-found condition (`FileNotFoundError` in the source, raised before
the log directory is created or any output file is opened) and
produces no output: the error result carries no path and no rows. -/
theorem snapshot_missing_C7 (pasta_logs descricao_padrao ts_nome ts_coluna : String) :
    registrar_log_insercao pasta_logs descricao_padrao none ts_nome ts_coluna =
      Except.error "CSV da inserção não encontrado" := rfl

/-- C10: the snapshot copies each non-blank source row's column values
verbatim, adding only the timestamp column, and never consults the
configured default description: the output is invariant under changing
that setting, and a row whose description column holds the literal
`"DEFAULT"` is written with the literal `"DEFAULT"`. -/
theorem snapshot_verbatim_C10 (pl d1 d2 tn tc : String) (rows : List CsvRow) :
    registrar_log_insercao pl d1 (some rows) tn tc =
      registrar_log_insercao pl d2 (some rows) tn tc ∧
    ∀ r ∈ rows, rowIsBlank r = false →
      ∃ out : String × List SnapRow,
        registrar_log_insercao pl d1 (some rows) tn tc = Except.ok out ∧
        (⟨r.nome, r.titulo, r.imgUrl, r.descricao, r.quantidade, r.preco, tc⟩ : SnapRow)
          ∈ out.2 := by
  refine ⟨rfl, ?_⟩
  intro r hr hb
  refine ⟨_, rfl, ?_⟩
  exact List.mem_map_of_mem _ (List.mem_filter.mpr ⟨hr, by simp [hb]⟩)

theorem snapshot_verbatim_C10_witness :
    ∃ out : String × List SnapRow,
      registrar_log_insercao "/logs" "descA" (some [rowLiteralDefault])
        "20250101_000000" "2025-01-01 00:00:00" = Except.ok out ∧
      (⟨"a", "b", "c", "DEFAULT", "1", "2", "2025-01-01 00:00:00"⟩ : SnapRow) ∈ out.2 := by
  obtain ⟨out, h1, h2⟩ :=
    (snapshot_verbatim_C10 "/logs" "descA" "descB" "20250101_000000" "2025-01-01 00:00:00"
      [rowLiteralDefault]).2 rowLiteralDefault (by simp) (by decide)
  exact ⟨out, h1, h2⟩

/-! ## Whole-file save under write failure -/

theorem writeRows_eq (q : List CsvLine) :
    ∀ (fuel : Nat) (acc : List CsvLine),
      writeRows fuel acc q = (acc ++ q.take fuel, decide (q.length ≤ fuel)) := by
  induction q with
  | nil =>
    intro fuel acc
    simp [writeRows]
  | cons l rest ih =>
    intro fuel acc
    cases fuel with
    | zero => simp [writeRows]
    | succ f =>
      rw [show writeRows (f + 1) acc (l :: rest) = writeRows f (acc ++ [l]) rest from rfl,
        ih f (acc ++ [l])]
      simp [List.take_succ_cons, List.append_assoc, Nat.succ_le_succ_iff]

/-- C8, counterexample: with the prior ledger content on disk and
every line write failing (zero successful writes), `salvar_insercao`
leaves the file empty — the operation fails, the complete set of
records is not written, and the prior content is NOT preserved,
because the file was truncated by opening it in write mode. -/
theorem save_atomicity_C8_counterexample :
    (salvar_insercao_fallible 0 (some [CsvLine.header, CsvLine.record rowOld]) [itemDog]).2
      = false ∧
    (salvar_insercao_fallible 0 (some [CsvLine.header, CsvLine.record rowOld]) [itemDog]).1
      = some [] ∧
    some ([] : List CsvLine) ≠ some [CsvLine.header, CsvLine.record rowOld] := by
  refine ⟨rfl, rfl, by simp⟩

/-- C8 (amended): `salvar_insercao` writes in place: it truncates the
file on open, then writes the header and the record lines in order; a
run whose first `fuel` line writes succeed leaves the file holding
exactly those first `fuel` lines, whatever the prior content was, and
reports success exactly when every line was written.  On a mid-write
failure the prior content is lost, not preserved. -/
theorem save_atomicity_C8 (fuel : Nat) (prior : Option (List CsvLine))
    (itens : List ItemInsercao) :
    salvar_insercao_fallible fuel prior itens =
      (some ((CsvLine.header :: itens.map (fun i => CsvLine.record (salvar_row i))).take fuel),
       decide ((CsvLine.header ::
         itens.map (fun i => CsvLine.record (salvar_row i))).length ≤ fuel)) := by
  simp [salvar_insercao_fallible, writeRows_eq]

end OfferPlacer
